/-
Verification of the glider flight-simulation core of the `lift` repository.

The TypeScript sources under
`packages/nextjs/components/flight-sim/physics/{constants,FlightPhysics}.ts`
and `packages/nextjs/components/flight-sim/world/Glider.tsx` (thermal system)
are shallowly embedded below.  JavaScript numbers are modelled as real
numbers; `Math.random()` is modelled as an explicit oracle stream of reals,
which makes every operation a deterministic function of its inputs.
THREE.js vector/quaternion operations are embedded following the formulas of
the THREE.js implementations used by the code (`Vector3`, `Vector2`,
`Quaternion`).
-/
import Mathlib

set_option linter.unusedVariables false

noncomputable section

open Real

open scoped Classical

/-! ## JavaScript math primitives -/

/-- JavaScript `Math.atan2(y, x)` on real numbers (sign conventions of IEEE
atan2; the distinction between `+0` and `-0` does not exist in `ℝ`,
`atan2 0 0 = 0` as for JavaScript's `Math.atan2(0, 0)`). -/
def atan2 (y x : ℝ) : ℝ :=
  if 0 < x then Real.arctan (y / x)
  else if x < 0 then
    (if 0 ≤ y then Real.arctan (y / x) + π else Real.arctan (y / x) - π)
  else
    (if 0 < y then π / 2 else if y < 0 then -(π / 2) else 0)

/-! ## THREE.js vectors and quaternions -/

/-- THREE.Vector2 (used for thermal centers; `y` holds the world `z`). -/
structure Vec2 where
  x : ℝ
  y : ℝ

/-- `THREE.Vector2.distanceTo`. -/
def Vec2.distanceTo (a b : Vec2) : ℝ :=
  Real.sqrt ((a.x - b.x) ^ 2 + (a.y - b.y) ^ 2)

/-- THREE.Vector3. -/
structure Vec3 where
  x : ℝ
  y : ℝ
  z : ℝ

namespace Vec3

def add (a b : Vec3) : Vec3 := ⟨a.x + b.x, a.y + b.y, a.z + b.z⟩

def sub (a b : Vec3) : Vec3 := ⟨a.x - b.x, a.y - b.y, a.z - b.z⟩

/-- `THREE.Vector3.multiplyScalar`. -/
def scale (a : Vec3) (s : ℝ) : Vec3 := ⟨a.x * s, a.y * s, a.z * s⟩

/-- `THREE.Vector3.negate`. -/
def neg (a : Vec3) : Vec3 := ⟨-a.x, -a.y, -a.z⟩

def dot (a b : Vec3) : ℝ := a.x * b.x + a.y * b.y + a.z * b.z

/-- `THREE.Vector3.cross`. -/
def cross (a b : Vec3) : Vec3 :=
  ⟨a.y * b.z - a.z * b.y, a.z * b.x - a.x * b.z, a.x * b.y - a.y * b.x⟩

/-- `THREE.Vector3.length`. -/
def length (a : Vec3) : ℝ := Real.sqrt (a.x ^ 2 + a.y ^ 2 + a.z ^ 2)

/-- `THREE.Vector3.normalize` is `divideScalar (length ∨ 1)`: a zero vector is
left unchanged (division by `1`), otherwise the vector is scaled by the
reciprocal of its length. -/
def normalize (a : Vec3) : Vec3 :=
  if a.length = 0 then a else a.scale (1 / a.length)

end Vec3

/-- THREE.Quaternion. -/
structure Quat where
  x : ℝ
  y : ℝ
  z : ℝ
  w : ℝ

namespace Quat

/-- Squared length `x² + y² + z² + w²`. -/
def normSq (q : Quat) : ℝ := q.x ^ 2 + q.y ^ 2 + q.z ^ 2 + q.w ^ 2

/-- `THREE.Quaternion.length`. -/
def length (q : Quat) : ℝ := Real.sqrt q.normSq

/-- `THREE.Quaternion.multiply` (Hamilton product, `a * b`). -/
def mul (a b : Quat) : Quat :=
  ⟨a.x * b.w + a.w * b.x + a.y * b.z - a.z * b.y,
   a.y * b.w + a.w * b.y + a.z * b.x - a.x * b.z,
   a.z * b.w + a.w * b.z + a.x * b.y - a.y * b.x,
   a.w * b.w - a.x * b.x - a.y * b.y - a.z * b.z⟩

/-- `THREE.Quaternion.setFromAxisAngle` (axis assumed normalized by THREE). -/
def setFromAxisAngle (axis : Vec3) (angle : ℝ) : Quat :=
  let halfAngle := angle / 2
  let s := Real.sin halfAngle
  ⟨axis.x * s, axis.y * s, axis.z * s, Real.cos halfAngle⟩

/-- `THREE.Quaternion.normalize`: a zero quaternion becomes the identity,
otherwise every component is multiplied by the reciprocal length. -/
def normalize (q : Quat) : Quat :=
  if q.length = 0 then ⟨0, 0, 0, 1⟩
  else ⟨q.x * (1 / q.length), q.y * (1 / q.length), q.z * (1 / q.length),
        q.w * (1 / q.length)⟩

end Quat

/-- `THREE.Vector3.applyQuaternion` (the quaternion-vector sandwich product, in
the exact arithmetic form used by THREE.js). -/
def Vec3.applyQuaternion (v : Vec3) (q : Quat) : Vec3 :=
  let ix := q.w * v.x + q.y * v.z - q.z * v.y
  let iy := q.w * v.y + q.z * v.x - q.x * v.z
  let iz := q.w * v.z + q.x * v.y - q.y * v.x
  let iw := -q.x * v.x - q.y * v.y - q.z * v.z
  ⟨ix * q.w + iw * -q.x + iy * -q.z - iz * -q.y,
   iy * q.w + iw * -q.y + iz * -q.x - ix * -q.z,
   iz * q.w + iw * -q.z + ix * -q.y - iy * -q.x⟩

/-! ## constants.ts -/

def RHO : ℝ := 1.225
def GRAVITY : ℝ := 9.81

def MASS : ℝ := 420
def WING_AREA_S : ℝ := 16.0

def ALPHA_0 : ℝ := -2 * (π / 180)
def CL_ALPHA : ℝ := 5.5
def CL_MAX : ℝ := 1.2
def CL_MAX_NEG : ℝ := 0.9
def STALL_ALPHA_POS : ℝ := 12 * (π / 180)
def STALL_ALPHA_NEG : ℝ := -10 * (π / 180)

def CD_0 : ℝ := 0.018
def K_DRAG : ℝ := 0.045

def SIDE_DRAG_FACTOR : ℝ := 2.5
def ROLL_DAMP : ℝ := 0.15
def PITCH_DAMP : ℝ := 0.12
def YAW_DAMP : ℝ := 0.25
def WEATHERVANE_STRENGTH : ℝ := 0.3

def MAX_ROLL_RATE : ℝ := 70 * (π / 180)
def MAX_PITCH_RATE : ℝ := 35 * (π / 180)
def MAX_YAW_RATE : ℝ := 25 * (π / 180)
def RUDDER_COORDINATION : ℝ := 0

/-- Thermal population target; a count, hence `ℕ` (the source uses the number
`20` both as the population size and as the loop bound). -/
def THERMAL_COUNT : ℕ := 20

def THERMAL_CORE_RADIUS : ℝ := 350
def THERMAL_OUTER_RADIUS : ℝ := 600
def THERMAL_W_MAX : ℝ := 20
def THERMAL_W_MIN : ℝ := 10
def THERMAL_SINK_PEAK_RADIUS : ℝ := 250
def THERMAL_SINK_WIDTH : ℝ := 120
def CLOUD_BASE : ℝ := 1200
def THERMAL_TURBULENCE_AMPLITUDE : ℝ := 0.3

def WIND_SPEED : ℝ := 6
def WIND_DIRECTION : ℝ := π / 4
def THERMAL_DRIFT_FACTOR : ℝ := 0.7

def WORLD_SIZE : ℝ := 10000

/-! ## FlightPhysics.ts : data model -/

structure GliderState where
  position : Vec3
  velocity : Vec3
  quaternion : Quat
  angularVelocity : Vec3

structure ControlInput where
  pitch : ℝ
  roll : ℝ
  yaw : ℝ

structure WindField where
  horizontal : Vec3
  vertical : ℝ

/-- `getForwardVector` (nose points +Z in local space). -/
def getForwardVector (quaternion : Quat) : Vec3 :=
  Vec3.applyQuaternion ⟨0, 0, 1⟩ quaternion

/-- `getUpVector`. -/
def getUpVector (quaternion : Quat) : Vec3 :=
  Vec3.applyQuaternion ⟨0, 1, 0⟩ quaternion

/-- `getRightVector`. -/
def getRightVector (quaternion : Quat) : Vec3 :=
  Vec3.applyQuaternion ⟨1, 0, 0⟩ quaternion

/-- `calculateAngleOfAttack`. -/
def calculateAngleOfAttack (velocity : Vec3) (quaternion : Quat) : ℝ :=
  let forward := getForwardVector quaternion
  let up := getUpVector quaternion
  let airspeed := velocity.length
  if airspeed < 0.1 then 0
  else
    let velocityNorm := velocity.normalize
    let forwardComponent := velocityNorm.dot forward
    let upComponent := velocityNorm.dot up
    atan2 (-upComponent) forwardComponent

/-- `calculateCL`. -/
def calculateCL (alpha : ℝ) : ℝ :=
  if alpha > STALL_ALPHA_POS then
    let stallExcess := alpha - STALL_ALPHA_POS
    let postStallFactor := max 0.5 (1 - stallExcess * 3)
    CL_MAX * postStallFactor
  else if alpha < STALL_ALPHA_NEG then
    let stallExcess := STALL_ALPHA_NEG - alpha
    let postStallFactor := max 0.5 (1 - stallExcess * 3)
    (-CL_MAX_NEG) * postStallFactor
  else
    let cl := CL_ALPHA * (alpha - ALPHA_0)
    max (-CL_MAX_NEG) (min CL_MAX cl)

/-- `calculateCD`. -/
def calculateCD (cl : ℝ) : ℝ := CD_0 + K_DRAG * cl * cl

/-- The full wind vector `windField.horizontal` with `windField.vertical`
added to its `y` component (the pattern `windVector.y += windField.vertical`
recurs in `calculateAeroForces`, `updatePhysics` and `getTelemetry`). -/
def windVec (windField : WindField) : Vec3 :=
  ⟨windField.horizontal.x, windField.horizontal.y + windField.vertical,
   windField.horizontal.z⟩

structure AeroForces where
  lift : Vec3
  drag : Vec3
  sideForce : Vec3

/-- `calculateAeroForces` (`Math.sign` is `Real.sign`: `-1`, `0` or `1`). -/
def calculateAeroForces (velocity : Vec3) (quaternion : Quat)
    (windField : WindField) : AeroForces :=
  let airVelocity := velocity.sub (windVec windField)
  let airspeed := airVelocity.length
  if airspeed < 0.5 then ⟨⟨0, 0, 0⟩, ⟨0, 0, 0⟩, ⟨0, 0, 0⟩⟩
  else
    let q := 0.5 * RHO * airspeed * airspeed
    let alpha := calculateAngleOfAttack airVelocity quaternion
    let cl := calculateCL alpha
    let cd := calculateCD cl
    let liftMag := q * WING_AREA_S * cl
    let dragMag := q * WING_AREA_S * cd
    let airVelocityNorm := airVelocity.normalize
    let liftDir := (airVelocityNorm.cross (getRightVector quaternion)).normalize
    let dragDir := airVelocityNorm.neg
    let right := getRightVector quaternion
    let sideComponent := airVelocity.dot right
    let sideForceMag := q * WING_AREA_S * |sideComponent| * 0.1 * SIDE_DRAG_FACTOR
    let sideForceDir := right.scale (-(Real.sign sideComponent))
    ⟨liftDir.scale liftMag, dragDir.scale dragMag, sideForceDir.scale sideForceMag⟩

/-- `applyControlInputs` (response gains 5.0 / 4.0 / 4.0 as in the source). -/
def applyControlInputs (angularVelocity : Vec3) (controls : ControlInput)
    (deltaTime : ℝ) : Vec3 :=
  let targetRollRate := controls.roll * MAX_ROLL_RATE
  let targetPitchRate := -controls.pitch * MAX_PITCH_RATE
  let autoYaw := controls.roll * MAX_YAW_RATE * RUDDER_COORDINATION
  let manualYaw := -controls.yaw * MAX_YAW_RATE
  let targetYawRate := manualYaw + autoYaw
  ⟨angularVelocity.x + (targetPitchRate - angularVelocity.x) * 4.0 * deltaTime,
   angularVelocity.y + (targetYawRate - angularVelocity.y) * 4.0 * deltaTime,
   angularVelocity.z + (targetRollRate - angularVelocity.z) * 5.0 * deltaTime⟩

/-- `applyDamping`. -/
def applyDamping (angularVelocity : Vec3) (deltaTime : ℝ) : Vec3 :=
  ⟨angularVelocity.x * (1 - PITCH_DAMP * deltaTime * 10),
   angularVelocity.y * (1 - YAW_DAMP * deltaTime * 10),
   angularVelocity.z * (1 - ROLL_DAMP * deltaTime * 10)⟩

/-- `applyWeathervane`. -/
def applyWeathervane (angularVelocity velocity : Vec3) (quaternion : Quat)
    (deltaTime : ℝ) : Vec3 :=
  let airspeed := velocity.length
  if airspeed < 5 then angularVelocity
  else
    let velocityNorm := velocity.normalize
    let right := getRightVector quaternion
    let sideslip := velocityNorm.dot right
    if |sideslip| < 0.01 then angularVelocity
    else
      let speedFactor := min 1 (airspeed / 30)
      let targetYawRate := -sideslip * WEATHERVANE_STRENGTH * speedFactor
      ⟨angularVelocity.x,
       angularVelocity.y + (targetYawRate - angularVelocity.y) * deltaTime * 3,
       angularVelocity.z⟩

/-! ## FlightPhysics.ts : updatePhysics, staged

`updatePhysics` is presented as a composition of named stages; each stage is a
verbatim transcription of the corresponding lines of the source.  `dt` is the
already-clamped timestep `Math.min(deltaTime, 0.05)`. -/

/-- Semi-implicit velocity update: gravity plus the aerodynamic forces of
`calculateAeroForces`, divided by `MASS`, times `dt`, added to the current
velocity. -/
def integratedVelocity (state : GliderState) (controls : ControlInput)
    (windField : WindField) (dt : ℝ) : Vec3 :=
  let gravity : Vec3 := ⟨0, -GRAVITY * MASS, 0⟩
  let aeroForces := calculateAeroForces state.velocity state.quaternion windField
  let totalForce :=
    ((gravity.add aeroForces.lift).add aeroForces.drag).add aeroForces.sideForce
  let acceleration := totalForce.scale (1 / MASS)
  state.velocity.add (acceleration.scale dt)

/-- The angular-velocity pipeline up to and including the weathervane stage:
`applyControlInputs`, then `applyDamping`, then `applyWeathervane` with the
*updated* velocity and the current orientation. -/
def angularAfterWeathervane (state : GliderState) (controls : ControlInput)
    (windField : WindField) (dt : ℝ) : Vec3 :=
  applyWeathervane
    (applyDamping (applyControlInputs state.angularVelocity controls dt) dt)
    (integratedVelocity state controls windField dt) state.quaternion dt

/-- The angle of attack recomputed inside `updatePhysics` for the stability and
stall corrections: `calculateAngleOfAttack(state.velocity - fullWindVector,
state.quaternion)` — the *pre-integration* velocity is used. -/
def updateAlpha (state : GliderState) (windField : WindField) : ℝ :=
  calculateAngleOfAttack (state.velocity.sub (windVec windField)) state.quaternion

/-- Pitch-stability correction (target alpha 4°): adds
`alphaError * 0.5 * dt * 3` to the pitch rate when `|alphaError| > 2°` and
`|controls.pitch| < 0.3`. -/
def angularAfterStability (state : GliderState) (controls : ControlInput)
    (windField : WindField) (dt : ℝ) : Vec3 :=
  let av := angularAfterWeathervane state controls windField dt
  let alpha := updateAlpha state windField
  let targetAlpha := 4 * (π / 180)
  let alphaError := alpha - targetAlpha
  if |alphaError| > 2 * (π / 180) ∧ |controls.pitch| < 0.3 then
    ⟨av.x + alphaError * 0.5 * dt * 3, av.y, av.z⟩
  else av

/-- Stall nose-drop / nose-up correction. -/
def angularAfterStall (state : GliderState) (controls : ControlInput)
    (windField : WindField) (dt : ℝ) : Vec3 :=
  let av := angularAfterStability state controls windField dt
  let alpha := updateAlpha state windField
  if alpha > STALL_ALPHA_POS then
    let stallSeverity := (alpha - STALL_ALPHA_POS) / (π / 18)
    let noseDropRate := 1.5 * min 1 stallSeverity
    ⟨av.x + noseDropRate * dt * 5, av.y, av.z⟩
  else if alpha < STALL_ALPHA_NEG then
    let stallSeverity := (STALL_ALPHA_NEG - alpha) / (π / 18)
    let noseUpRate := -1.5 * min 1 stallSeverity
    ⟨av.x + noseUpRate * dt * 5, av.y, av.z⟩
  else av

/-- Orientation update: when the angular speed exceeds `1e-4`, compose the
three per-axis rotation increments on the right of the current orientation and
renormalize; otherwise keep the current orientation. -/
def quaternionAfter (state : GliderState) (controls : ControlInput)
    (windField : WindField) (dt : ℝ) : Quat :=
  let av := angularAfterStall state controls windField dt
  if av.length > 0.0001 then
    ((((state.quaternion.mul
        (Quat.setFromAxisAngle ⟨1, 0, 0⟩ (av.x * dt))).mul
        (Quat.setFromAxisAngle ⟨0, 1, 0⟩ (av.y * dt))).mul
        (Quat.setFromAxisAngle ⟨0, 0, 1⟩ (av.z * dt)))).normalize
  else state.quaternion

/-- `updatePhysics`: the main physics step. -/
def updatePhysics (state : GliderState) (controls : ControlInput)
    (windField : WindField) (deltaTime : ℝ) : GliderState :=
  let dt := min deltaTime 0.05
  let newVelocity := integratedVelocity state controls windField dt
  let newPosition := state.position.add (newVelocity.scale dt)
  let newAngularVel := angularAfterStall state controls windField dt
  let newQuaternion := quaternionAfter state controls windField dt
  if newPosition.y < 5 then
    { position := ⟨newPosition.x, 5, newPosition.z⟩
      velocity :=
        if newVelocity.y < 0 then
          ⟨newVelocity.x * 0.98, 0, newVelocity.z * 0.98⟩
        else newVelocity
      quaternion := newQuaternion
      angularVelocity := newAngularVel }
  else
    { position := newPosition
      velocity := newVelocity
      quaternion := newQuaternion
      angularVelocity := newAngularVel }

/-! ## FlightPhysics.ts : telemetry -/

structure Telemetry where
  airspeed : ℝ
  groundSpeed : ℝ
  altitude : ℝ
  verticalSpeed : ℝ
  heading : ℝ
  bankAngle : ℝ
  pitchAngle : ℝ
  angleOfAttack : ℝ
  isStalling : Bool

/-- `getTelemetry`.  The heading normalization `(heading + 360) % 360` uses
the JavaScript remainder; since `heading + 360` is a real number here, it is
written with `Int.floor`, which coincides with JavaScript's truncated
remainder for the positive dividends produced by `atan2·180/π + 360`. -/
def getTelemetry (state : GliderState) (windField : WindField) : Telemetry :=
  let airVelocity := state.velocity.sub (windVec windField)
  let airspeed := airVelocity.length
  let forward := getForwardVector state.quaternion
  let right := getRightVector state.quaternion
  let heading := atan2 forward.x forward.z * (180 / π)
  let bankAngle := Real.arcsin right.y * (180 / π)
  let pitchAngle := Real.arcsin forward.y * (180 / π)
  let alpha := calculateAngleOfAttack airVelocity state.quaternion
  let isStalling : Bool :=
    if alpha > STALL_ALPHA_POS ∨ alpha < STALL_ALPHA_NEG then true else false
  { airspeed := airspeed
    groundSpeed := Real.sqrt (state.velocity.x ^ 2 + state.velocity.z ^ 2)
    altitude := state.position.y
    verticalSpeed := state.velocity.y
    heading := (heading + 360) - 360 * ((⌊(heading + 360) / 360⌋ : ℤ) : ℝ)
    bankAngle := bankAngle
    pitchAngle := pitchAngle
    angleOfAttack := alpha * (180 / π)
    isStalling := isStalling }

/-! ## Glider.tsx : thermal system

`Math.random()` is modelled as an oracle `rand : ℕ → ℝ` together with a
counter giving the position of the next unconsumed draw; each draw advances
the counter by one.  The string id `Math.random().toString(36).substring(7)`
is presentation-only identity and carries no simulation data; it is omitted
from the embedding. -/

structure Thermal where
  center : Vec2
  radius : ℝ
  strength : ℝ
  age : ℝ
  lifetime : ℝ

structure ThermalSystemState where
  thermals : List Thermal
  wind : Vec3
  time : ℝ

/-- The candidate-center do-while loop of `createThermal`: draw a center
uniformly in 80% of the world extent; while fewer than 10 attempts have been
made and the candidate is within `2 × THERMAL_OUTER_RADIUS` of an existing
thermal, redraw.  `fuel` is the number of redraws still allowed (`9` on entry,
since the first draw is attempt 1 of 10); the pair returned is the accepted
center and the next unconsumed oracle position. -/
def pickCenter (rand : ℕ → ℝ) (existingThermals : List Thermal) :
    ℕ → ℕ → Vec2 × ℕ
  | k, fuel =>
    let center : Vec2 := ⟨(rand k - 0.5) * WORLD_SIZE * 0.8,
                          (rand (k + 1) - 0.5) * WORLD_SIZE * 0.8⟩
    match fuel with
    | 0 => (center, k + 2)
    | fuel' + 1 =>
      if ∃ t ∈ existingThermals,
          Vec2.distanceTo t.center center < THERMAL_OUTER_RADIUS * 2 then
        pickCenter rand existingThermals (k + 2) fuel'
      else (center, k + 2)

/-- `createThermal`: pick a declustered center (best effort, 10 attempts),
then draw strength, radius and lifetime; age starts at 0.  Returns the new
thermal together with the next unconsumed oracle position. -/
def createThermal (rand : ℕ → ℝ) (k : ℕ) (existingThermals : List Thermal) :
    Thermal × ℕ :=
  let pick := pickCenter rand existingThermals k 9
  let center := pick.1
  let k' := pick.2
  let strength := THERMAL_W_MIN + rand k' * (THERMAL_W_MAX - THERMAL_W_MIN)
  let radius := THERMAL_CORE_RADIUS * (0.8 + rand (k' + 1) * 0.4)
  (⟨center, radius, strength, 0, 180 + rand (k' + 2) * 300⟩, k' + 3)

/-- The replenishment loop of `updateThermalSystem`:
`while (updatedThermals.length < THERMAL_COUNT) push(createThermal(...))`. -/
def replenish (rand : ℕ → ℝ) (k : ℕ) (l : List Thermal) : List Thermal :=
  if h : l.length < THERMAL_COUNT then
    let tk := createThermal rand k l
    replenish rand tk.2 (l ++ [tk.1])
  else l
termination_by THERMAL_COUNT - l.length
decreasing_by simp only [List.length_append, List.length_cons, List.length_nil]; omega

/-- The per-thermal survivor transform of `updateThermalSystem`: age the
thermal; drop it once `age > lifetime`; otherwise drift the center with the
wind and wrap it toroidally on both horizontal axes (each wrap test looks at
the already-updated coordinate, as the sequential `if` statements do). -/
def agedDriftedThermal (wind : Vec3) (deltaTime : ℝ) (thermal : Thermal) :
    Option Thermal :=
  let newAge := thermal.age + deltaTime
  if newAge > thermal.lifetime then none
  else
    let driftX := wind.x * THERMAL_DRIFT_FACTOR * deltaTime
    let driftZ := wind.z * THERMAL_DRIFT_FACTOR * deltaTime
    let halfWorld := WORLD_SIZE / 2
    let cx0 := thermal.center.x + driftX
    let cy0 := thermal.center.y + driftZ
    let cx1 := if cx0 > halfWorld then cx0 - WORLD_SIZE else cx0
    let cx2 := if cx1 < -halfWorld then cx1 + WORLD_SIZE else cx1
    let cy1 := if cy0 > halfWorld then cy0 - WORLD_SIZE else cy0
    let cy2 := if cy1 < -halfWorld then cy1 + WORLD_SIZE else cy1
    some { thermal with center := ⟨cx2, cy2⟩, age := newAge }

/-- `updateThermalSystem`. -/
def updateThermalSystem (rand : ℕ → ℝ) (k : ℕ) (state : ThermalSystemState)
    (deltaTime : ℝ) : ThermalSystemState :=
  let newTime := state.time + deltaTime
  let updatedThermals :=
    state.thermals.filterMap (agedDriftedThermal state.wind deltaTime)
  { thermals := replenish rand k updatedThermals
    wind := state.wind
    time := newTime }

/-! ## Spec-modelled variant for claim C4

The specification asserts that the pitch-stability correction recomputes the
angle of attack from the *post-integration* air-relative velocity.  The
following definition follows those words; the source (`updatePhysics`,
FlightPhysics.ts line 282) instead passes `state.velocity`.  It exists only to
be compared with the faithful `angularAfterStability`. -/

/-- Modelled from the spec (claim C4): pitch-stability correction whose angle
of attack is recomputed from the post-integration air-relative velocity
`integratedVelocity - windVec` with the current orientation; otherwise
identical to `angularAfterStability`. -/
def angularAfterStabilityPostIntegration (state : GliderState)
    (controls : ControlInput) (windField : WindField) (dt : ℝ) : Vec3 :=
  let av := angularAfterWeathervane state controls windField dt
  let alpha := calculateAngleOfAttack
    ((integratedVelocity state controls windField dt).sub (windVec windField))
    state.quaternion
  let targetAlpha := 4 * (π / 180)
  let alphaError := alpha - targetAlpha
  if |alphaError| > 2 * (π / 180) ∧ |controls.pitch| < 0.3 then
    ⟨av.x + alphaError * 0.5 * dt * 3, av.y, av.z⟩
  else av

/-! ## Concrete fixtures used by counterexamples and witnesses -/

/-- The identity quaternion. -/
def idQuat : Quat := ⟨0, 0, 0, 1⟩

/-- Zero control input. -/
def zeroControls : ControlInput := ⟨0, 0, 0⟩

/-- Zero wind. -/
def zeroWind : WindField := ⟨⟨0, 0, 0⟩, 0⟩

/-- Slow level flight (0.3 m/s along +Z, below the 0.5 m/s aerodynamic
cut-off), level orientation, no rotation: fixture for claim C4. -/
def stateC4 : GliderState :=
  ⟨⟨0, 500, 0⟩, ⟨0, 0, 0.3⟩, idQuat, ⟨0, 0, 0⟩⟩

/-- Fixture for claim C5: altitude 3 m, descending at 5 m/s while moving
10 m/s along +X; the wind sample cancels the air-relative velocity so the
aerodynamic forces vanish and gravity is the only force. -/
def stateC5 : GliderState :=
  ⟨⟨0, 3, 0⟩, ⟨10, -5, 0⟩, idQuat, ⟨0, 0, 0⟩⟩

/-- Wind sample for claim C5 (horizontal +X 10 m/s, vertical −5 m/s). -/
def windC5 : WindField := ⟨⟨10, 0, 0⟩, -5⟩

/-- A level state whose velocity realizes a prescribed angle of attack `a`
exactly: with the identity orientation and velocity `(0,−tan a, 1)` the code
computes `α = atan2(tan a, 1) = a` for `a ∈ (−π/2, π/2)`. -/
def alphaTestState (a : ℝ) : GliderState :=
  ⟨⟨0, 0, 0⟩, ⟨0, -Real.tan a, 1⟩, idQuat, ⟨0, 0, 0⟩⟩

/-- A thermal that survives ageing by 1 s: age 0, lifetime 300 s. -/
def longLivedThermal : Thermal := ⟨⟨0, 0⟩, 350, 10, 0, 300⟩

/-- A thermal population of 21 — one more than the target — all long-lived:
fixture for claim C2's counterexample. -/
def overfullThermalState : ThermalSystemState :=
  ⟨List.replicate 21 longLivedThermal, ⟨0, 0, 0⟩, 0⟩

/-- A constant oracle stream standing in for `Math.random`. -/
def constRand : ℕ → ℝ := fun _ => 1 / 2

/-! ## Helper lemmas -/

theorem sqrt_eval {a b : ℝ} (hb : 0 ≤ b) (h : b ^ 2 = a) : Real.sqrt a = b := by
  rw [← h, Real.sqrt_sq hb]

theorem sqrt_lt_of_lt_sq {a c : ℝ} (hc : 0 < c) (h : a < c ^ 2) :
    Real.sqrt a < c := by
  rcases le_or_lt a 0 with ha | ha
  · have h0 : Real.sqrt a = 0 := Real.sqrt_eq_zero'.mpr ha
    linarith
  · have h2 := Real.sqrt_lt_sqrt ha.le h
    rwa [Real.sqrt_sq hc.le] at h2

theorem applyQuaternion_id (v : Vec3) : v.applyQuaternion idQuat = v := by
  simp [Vec3.applyQuaternion, idQuat]

theorem getForwardVector_id : getForwardVector idQuat = ⟨0, 0, 1⟩ := by
  simp [getForwardVector, applyQuaternion_id]

theorem getUpVector_id : getUpVector idQuat = ⟨0, 1, 0⟩ := by
  simp [getUpVector, applyQuaternion_id]

theorem getRightVector_id : getRightVector idQuat = ⟨1, 0, 0⟩ := by
  simp [getRightVector, applyQuaternion_id]

theorem Quat.normSq_nonneg (q : Quat) : 0 ≤ q.normSq := by
  unfold Quat.normSq; positivity

theorem Quat.length_nonneg (q : Quat) : 0 ≤ q.length := Real.sqrt_nonneg _

/-- `THREE.Quaternion.normalize` always yields a quaternion of length exactly
one in real arithmetic (a zero quaternion is replaced by the identity). -/
theorem Quat.length_normalize (q : Quat) : q.normalize.length = 1 := by
  unfold Quat.normalize
  by_cases h : q.length = 0
  · rw [if_pos h]
    unfold Quat.length Quat.normSq
    norm_num
  · rw [if_neg h]
    have hsq : q.length ^ 2 = q.normSq := Real.sq_sqrt (Quat.normSq_nonneg q)
    have hlnz : q.length ^ 2 ≠ 0 := pow_ne_zero 2 h
    have key : (q.x * (1 / q.length)) ^ 2 + (q.y * (1 / q.length)) ^ 2 +
        (q.z * (1 / q.length)) ^ 2 + (q.w * (1 / q.length)) ^ 2 = 1 := by
      have expand : (q.x * (1 / q.length)) ^ 2 + (q.y * (1 / q.length)) ^ 2 +
          (q.z * (1 / q.length)) ^ 2 + (q.w * (1 / q.length)) ^ 2 =
          q.normSq * (1 / q.length) ^ 2 := by
        unfold Quat.normSq; ring
      rw [expand, one_div, inv_pow, ← hsq]
      exact mul_inv_cancel₀ hlnz
    show Real.sqrt _ = 1
    rw [show Quat.normSq ⟨q.x * (1 / q.length), q.y * (1 / q.length),
        q.z * (1 / q.length), q.w * (1 / q.length)⟩ =
        (q.x * (1 / q.length)) ^ 2 + (q.y * (1 / q.length)) ^ 2 +
        (q.z * (1 / q.length)) ^ 2 + (q.w * (1 / q.length)) ^ 2 from rfl]
    rw [key, Real.sqrt_one]

theorem atan2_of_pos_x {y x : ℝ} (hx : 0 < x) :
    atan2 y x = Real.arctan (y / x) := by
  unfold atan2; rw [if_pos hx]

/-- `calculateAngleOfAttack` at the identity orientation, for a velocity with
positive `z` component and speed at least `0.1`: the angle of attack is
`arctan (−y/z)`. -/
theorem calculateAngleOfAttack_id_posz (v : Vec3) (hlen : ¬ v.length < 0.1)
    (hz : 0 < v.z) :
    calculateAngleOfAttack v idQuat = Real.arctan (-v.y / v.z) := by
  have hL : 0 < v.length := by push_neg at hlen; linarith
  have hne : v.length ≠ 0 := ne_of_gt hL
  simp only [calculateAngleOfAttack, getUpVector_id, getForwardVector_id,
    Vec3.normalize, if_neg hlen, if_neg hne, Vec3.scale, Vec3.dot]
  rw [show (-(v.x * (1 / v.length) * 0 + v.y * (1 / v.length) * 1 +
      v.z * (1 / v.length) * 0)) = -(v.y * (1 / v.length)) by ring]
  rw [show (v.x * (1 / v.length) * 0 + v.y * (1 / v.length) * 0 +
      v.z * (1 / v.length) * 1) = v.z * (1 / v.length) by ring]
  have hx : (0 : ℝ) < v.z * (1 / v.length) := by positivity
  rw [atan2_of_pos_x hx]
  congr 1
  field_simp
  ring

/-- With the identity orientation and velocity `(0, −tan a, 1)` the angle of
attack computed by `calculateAngleOfAttack` is exactly `a`, for
`a ∈ (−π/2, π/2)`. -/
theorem calculateAngleOfAttack_tan {a : ℝ} (h1 : -(π / 2) < a) (h2 : a < π / 2) :
    calculateAngleOfAttack ⟨0, -Real.tan a, 1⟩ idQuat = a := by
  have hlen : Vec3.length ⟨0, -Real.tan a, 1⟩ = Real.sqrt (Real.tan a ^ 2 + 1) := by
    unfold Vec3.length
    norm_num
  have hge : (1 : ℝ) ≤ Real.sqrt (Real.tan a ^ 2 + 1) :=
    Real.le_sqrt_of_sq_le (by nlinarith [sq_nonneg (Real.tan a)])
  have hnotlt : ¬ Vec3.length ⟨0, -Real.tan a, 1⟩ < 0.1 := by
    rw [hlen]; push_neg; linarith
  rw [calculateAngleOfAttack_id_posz _ hnotlt (by norm_num)]
  norm_num
  exact Real.arctan_tan h1 h2

/-- Below the 0.5 m/s air-relative-speed cut-off, `calculateAeroForces`
returns three zero vectors. -/
theorem calculateAeroForces_zero (v : Vec3) (q : Quat) (w : WindField)
    (h : (v.sub (windVec w)).length < 0.5) :
    calculateAeroForces v q w = ⟨⟨0, 0, 0⟩, ⟨0, 0, 0⟩, ⟨0, 0, 0⟩⟩ := by
  unfold calculateAeroForces
  rw [if_pos h]

/-- With zero aerodynamic forces the integrated velocity is the current
velocity plus the gravitational velocity increment. -/
theorem integratedVelocity_of_zero_aero (s : GliderState) (c : ControlInput)
    (w : WindField) (dt : ℝ)
    (h : (s.velocity.sub (windVec w)).length < 0.5) :
    integratedVelocity s c w dt =
      ⟨s.velocity.x, s.velocity.y - GRAVITY * dt, s.velocity.z⟩ := by
  unfold integratedVelocity
  rw [calculateAeroForces_zero s.velocity s.quaternion w h]
  simp only [Vec3.add, Vec3.scale]
  unfold GRAVITY MASS
  norm_num
  ring

theorem applyControlInputs_zero (dt : ℝ) :
    applyControlInputs ⟨0, 0, 0⟩ zeroControls dt = ⟨0, 0, 0⟩ := by
  unfold applyControlInputs zeroControls
  simp only
  norm_num

theorem applyDamping_zero (dt : ℝ) : applyDamping ⟨0, 0, 0⟩ dt = ⟨0, 0, 0⟩ := by
  unfold applyDamping
  simp only
  norm_num

theorem applyWeathervane_slow (ω v : Vec3) (q : Quat) (dt : ℝ)
    (h : v.length < 5) : applyWeathervane ω v q dt = ω := by
  unfold applyWeathervane
  rw [if_pos h]

/-- The angular-velocity component of `updatePhysics` is the output of the
stall-correction stage (ground contact does not touch it). -/
theorem updatePhysics_angularVelocity (s : GliderState) (c : ControlInput)
    (w : WindField) (dt : ℝ) :
    (updatePhysics s c w dt).angularVelocity =
      angularAfterStall s c w (min dt 0.05) := by
  simp only [updatePhysics]
  split <;> rfl

/-- The orientation component of `updatePhysics` is the output of the
orientation stage (ground contact does not touch it). -/
theorem updatePhysics_quaternion (s : GliderState) (c : ControlInput)
    (w : WindField) (dt : ℝ) :
    (updatePhysics s c w dt).quaternion =
      quaternionAfter s c w (min dt 0.05) := by
  simp only [updatePhysics]
  split <;> rfl

/-! Evaluation of the claim-C4 fixture. -/

theorem airVel_C4 : stateC4.velocity.sub (windVec zeroWind) = ⟨0, 0, 0.3⟩ := by
  unfold stateC4 zeroWind windVec Vec3.sub
  norm_num

theorem length_C4 : Vec3.length ⟨0, 0, 0.3⟩ = 0.3 := by
  unfold Vec3.length
  rw [show (0 : ℝ) ^ 2 + 0 ^ 2 + 0.3 ^ 2 = 0.3 ^ 2 by norm_num]
  exact Real.sqrt_sq (by norm_num)

theorem integratedVelocity_C4 :
    integratedVelocity stateC4 zeroControls zeroWind 0.05 = ⟨0, -0.4905, 0.3⟩ := by
  rw [integratedVelocity_of_zero_aero _ _ _ _ (by rw [airVel_C4, length_C4]; norm_num)]
  unfold stateC4 GRAVITY
  norm_num

theorem angularAfterWeathervane_C4 :
    angularAfterWeathervane stateC4 zeroControls zeroWind 0.05 = ⟨0, 0, 0⟩ := by
  unfold angularAfterWeathervane
  rw [show stateC4.angularVelocity = ⟨0, 0, 0⟩ from rfl]
  rw [applyControlInputs_zero, applyDamping_zero, integratedVelocity_C4]
  apply applyWeathervane_slow
  apply sqrt_lt_of_lt_sq (by norm_num)
  norm_num

theorem updateAlpha_C4 : updateAlpha stateC4 zeroWind = 0 := by
  unfold updateAlpha
  rw [airVel_C4, show stateC4.quaternion = idQuat from rfl]
  rw [calculateAngleOfAttack_id_posz _ (by rw [length_C4]; norm_num) (by norm_num)]
  norm_num

/-- Post-integration angle of attack at the C4 fixture: `arctan 1.635`. -/
theorem alphaPost_C4 :
    calculateAngleOfAttack
      ((integratedVelocity stateC4 zeroControls zeroWind 0.05).sub
        (windVec zeroWind)) stateC4.quaternion = Real.arctan 1.635 := by
  rw [integratedVelocity_C4]
  rw [show (Vec3.sub ⟨0, -0.4905, 0.3⟩ (windVec zeroWind)) = ⟨0, -0.4905, 0.3⟩ by
    unfold zeroWind windVec Vec3.sub; norm_num]
  rw [show stateC4.quaternion = idQuat from rfl]
  rw [calculateAngleOfAttack_id_posz _ ?hlen (by norm_num)]
  · norm_num
  case hlen =>
    push_neg
    apply le_trans _ (Real.le_sqrt_of_sq_le (show (0.1:ℝ)^2 ≤ 0^2 + (-0.4905)^2 + 0.3^2 by norm_num))
    norm_num

theorem not_stall_pos_zero : ¬ ((0 : ℝ) > STALL_ALPHA_POS) := by
  unfold STALL_ALPHA_POS
  push_neg
  positivity

theorem not_stall_neg_zero : ¬ ((0 : ℝ) < STALL_ALPHA_NEG) := by
  unfold STALL_ALPHA_NEG
  push_neg
  nlinarith [Real.pi_pos]

theorem angularAfterStability_C4 :
    angularAfterStability stateC4 zeroControls zeroWind 0.05 =
      ⟨(0 - 4 * (π / 180)) * 0.5 * 0.05 * 3, 0, 0⟩ := by
  have hcond : |(0 : ℝ) - 4 * (π / 180)| > 2 * (π / 180) ∧
      |zeroControls.pitch| < 0.3 := by
    constructor
    · rw [show (0 : ℝ) - 4 * (π / 180) = -(4 * (π / 180)) by ring, abs_neg,
        abs_of_nonneg (by positivity : (0 : ℝ) ≤ 4 * (π / 180))]
      nlinarith [Real.pi_pos]
    · unfold zeroControls
      norm_num
  simp only [angularAfterStability, angularAfterWeathervane_C4, updateAlpha_C4,
    if_pos hcond]
  norm_num

theorem angularAfterStall_C4 :
    angularAfterStall stateC4 zeroControls zeroWind 0.05 =
      ⟨(0 - 4 * (π / 180)) * 0.5 * 0.05 * 3, 0, 0⟩ := by
  simp only [angularAfterStall, updateAlpha_C4, if_neg not_stall_pos_zero,
    if_neg not_stall_neg_zero, angularAfterStability_C4]

theorem arctan_1635_gt : π / 4 < Real.arctan 1.635 := by
  rw [← Real.arctan_one]
  exact Real.arctan_strictMono (by norm_num)

theorem angularAfterStabilityPostIntegration_C4 :
    angularAfterStabilityPostIntegration stateC4 zeroControls zeroWind 0.05 =
      ⟨(Real.arctan 1.635 - 4 * (π / 180)) * 0.5 * 0.05 * 3, 0, 0⟩ := by
  have hgt := arctan_1635_gt
  have hcond : |Real.arctan 1.635 - 4 * (π / 180)| > 2 * (π / 180) ∧
      |zeroControls.pitch| < 0.3 := by
    constructor
    · rw [abs_of_pos (by nlinarith [Real.pi_pos])]
      nlinarith [Real.pi_pos]
    · unfold zeroControls
      norm_num
  simp only [angularAfterStabilityPostIntegration, alphaPost_C4,
    angularAfterWeathervane_C4, if_pos hcond]
  norm_num

/-! Replenishment-loop lemmas. -/

/-- The replenishment loop tops an under-full population up to exactly
`THERMAL_COUNT`. -/
theorem replenish_length (rand : ℕ → ℝ) :
    ∀ (m k : ℕ) (l : List Thermal), THERMAL_COUNT - l.length = m →
      l.length ≤ THERMAL_COUNT → (replenish rand k l).length = THERMAL_COUNT := by
  intro m
  induction m with
  | zero =>
    intro k l hm hle
    rw [replenish]
    have hnlt : ¬ l.length < THERMAL_COUNT := by omega
    rw [dif_neg hnlt]
    omega
  | succ n ih =>
    intro k l hm hle
    rw [replenish]
    have hlt : l.length < THERMAL_COUNT := by omega
    rw [dif_pos hlt]
    apply ih
    · simp only [List.length_append, List.length_cons, List.length_nil]
      omega
    · simp only [List.length_append, List.length_cons, List.length_nil]
      omega

/-- The replenishment loop only appends: its input list is a prefix of its
output. -/
theorem replenish_appends (rand : ℕ → ℝ) :
    ∀ (m k : ℕ) (l : List Thermal), THERMAL_COUNT - l.length = m →
      ∃ rest, replenish rand k l = l ++ rest := by
  intro m
  induction m with
  | zero =>
    intro k l hm
    rw [replenish]
    have hnlt : ¬ l.length < THERMAL_COUNT := by omega
    rw [dif_neg hnlt]
    exact ⟨[], by simp⟩
  | succ n ih =>
    intro k l hm
    rw [replenish]
    by_cases hlt : l.length < THERMAL_COUNT
    · rw [dif_pos hlt]
      obtain ⟨rest, hrest⟩ := ih (createThermal rand k l).2 (l ++ [(createThermal rand k l).1])
        (by simp only [List.length_append, List.length_cons, List.length_nil]; omega)
      exact ⟨[(createThermal rand k l).1] ++ rest, by rw [hrest, List.append_assoc]⟩
    · rw [dif_neg hlt]
      exact ⟨[], by simp⟩

/-- One thermal-system update keeps a population that was at or below the
target at exactly the target size. -/
theorem updateThermalSystem_count (rand : ℕ → ℝ) (k : ℕ)
    (s : ThermalSystemState) (dt : ℝ) (h : s.thermals.length ≤ THERMAL_COUNT) :
    (updateThermalSystem rand k s dt).thermals.length = THERMAL_COUNT := by
  unfold updateThermalSystem
  apply replenish_length rand _ k _ rfl
  exact le_trans (List.length_filterMap_le _ _) h

theorem filterMap_replicate_some {α β : Type} (f : α → Option β) (a : α)
    (b : β) (hf : f a = some b) :
    ∀ n, (List.replicate n a).filterMap f = List.replicate n b := by
  intro n
  induction n with
  | zero => rfl
  | succ n ih => simp [List.replicate_succ, List.filterMap_cons, hf, ih]

/-- Ageing the long-lived fixture thermal by one second in still air keeps it
alive and leaves its center at the origin. -/
theorem aged_longLived :
    agedDriftedThermal ⟨0, 0, 0⟩ 1 longLivedThermal =
      some ⟨⟨0, 0⟩, 350, 10, 1, 300⟩ := by
  unfold agedDriftedThermal longLivedThermal WORLD_SIZE THERMAL_DRIFT_FACTOR
  norm_num

/-! Branch evaluations of `calculateCL` near the stall boundaries. -/

/-- At the negative stall boundary itself, `calculateCL` takes the linear
(clamped) branch and the clamps are inactive: the value is
`CL_ALPHA·(STALL_ALPHA_NEG − ALPHA_0) = −44π/180 ≈ −0.768`. -/
theorem calculateCL_at_stall_neg :
    calculateCL STALL_ALPHA_NEG = 5.5 * (STALL_ALPHA_NEG - ALPHA_0) := by
  unfold calculateCL
  have hno1 : ¬ STALL_ALPHA_NEG > STALL_ALPHA_POS := by
    unfold STALL_ALPHA_NEG STALL_ALPHA_POS
    push_neg
    nlinarith [Real.pi_pos]
  rw [if_neg hno1, if_neg (lt_irrefl STALL_ALPHA_NEG)]
  unfold CL_ALPHA CL_MAX CL_MAX_NEG STALL_ALPHA_NEG ALPHA_0
  show max (-0.9 : ℝ) (min 1.2 (5.5 * (-10 * (π / 180) - -2 * (π / 180)))) =
    5.5 * (-10 * (π / 180) - -2 * (π / 180))
  rw [min_eq_right (by nlinarith [Real.pi_pos]),
    max_eq_right (by nlinarith [Real.pi_lt_d2])]

/-- Just below the negative stall boundary, `calculateCL` takes the negative
taper branch, whose floor `max` is inactive for excess `e ≤ 0.01`. -/
theorem calculateCL_taper_neg (e : ℝ) (h1 : 0 < e) (h2 : e ≤ 0.01) :
    calculateCL (STALL_ALPHA_NEG - e) = -0.9 * (1 - e * 3) := by
  unfold calculateCL
  have hno1 : ¬ STALL_ALPHA_NEG - e > STALL_ALPHA_POS := by
    unfold STALL_ALPHA_NEG STALL_ALPHA_POS
    push_neg
    nlinarith [Real.pi_pos]
  have hyes : STALL_ALPHA_NEG - e < STALL_ALPHA_NEG := by linarith
  rw [if_neg hno1, if_pos hyes]
  unfold CL_MAX_NEG
  show (-0.9 : ℝ) * (max 0.5 (1 - (STALL_ALPHA_NEG - (STALL_ALPHA_NEG - e)) * 3)) =
    -0.9 * (1 - e * 3)
  rw [show STALL_ALPHA_NEG - (STALL_ALPHA_NEG - e) = e by ring,
    max_eq_right (by linarith)]

/-- At and just below the positive stall boundary (`0 ≤ e ≤ 0.01`),
`calculateCL` takes the linear branch and the upper clamp is active: the value
is exactly `CL_MAX`. -/
theorem calculateCL_at_stall_pos_region (e : ℝ) (h1 : 0 ≤ e) (h2 : e ≤ 0.01) :
    calculateCL (STALL_ALPHA_POS - e) = 1.2 := by
  unfold calculateCL
  have hno1 : ¬ STALL_ALPHA_POS - e > STALL_ALPHA_POS := by
    push_neg
    linarith
  have hno2 : ¬ STALL_ALPHA_POS - e < STALL_ALPHA_NEG := by
    unfold STALL_ALPHA_NEG STALL_ALPHA_POS
    push_neg
    nlinarith [Real.pi_gt_d6]
  rw [if_neg hno1, if_neg hno2]
  unfold CL_ALPHA CL_MAX CL_MAX_NEG STALL_ALPHA_POS ALPHA_0
  show max (-0.9 : ℝ) (min 1.2 (5.5 * (12 * (π / 180) - e - -2 * (π / 180)))) = 1.2
  rw [min_eq_left (by nlinarith [Real.pi_gt_d6]),
    max_eq_right (by norm_num)]

/-- Just above the positive stall boundary, `calculateCL` takes the positive
taper branch, whose floor `max` is inactive for excess `e ≤ 0.01`. -/
theorem calculateCL_taper_pos (e : ℝ) (h1 : 0 < e) (h2 : e ≤ 0.01) :
    calculateCL (STALL_ALPHA_POS + e) = 1.2 * (1 - e * 3) := by
  unfold calculateCL
  have hyes : STALL_ALPHA_POS + e > STALL_ALPHA_POS := by linarith
  rw [if_pos hyes]
  unfold CL_MAX
  show (1.2 : ℝ) * (max 0.5 (1 - (STALL_ALPHA_POS + e - STALL_ALPHA_POS) * 3)) =
    1.2 * (1 - e * 3)
  rw [show STALL_ALPHA_POS + e - STALL_ALPHA_POS = e by ring,
    max_eq_right (by linarith)]

/-- C9: for every real angle of attack, `calculateCL` lies in the closed
interval `[−CL_MAX_NEG, CL_MAX] = [−0.9, 1.2]`: the linear region is clamped
to that interval, and each post-stall taper branch stays between half of its
boundary value and the boundary value itself. -/
theorem calculateCL_bounded : ∀ a : ℝ,
    -0.9 ≤ calculateCL a ∧ calculateCL a ≤ 1.2 := by
  intro a
  unfold calculateCL CL_MAX CL_MAX_NEG CL_ALPHA ALPHA_0
  split_ifs with h1 h2
  · have he : 0 ≤ a - STALL_ALPHA_POS := by linarith
    have hm1 : max (0.5 : ℝ) (1 - (a - STALL_ALPHA_POS) * 3) ≤ 1 :=
      max_le (by norm_num) (by linarith)
    have hm2 : (0.5 : ℝ) ≤ max 0.5 (1 - (a - STALL_ALPHA_POS) * 3) :=
      le_max_left _ _
    constructor <;> nlinarith
  · have he : 0 ≤ STALL_ALPHA_NEG - a := by linarith
    have hm1 : max (0.5 : ℝ) (1 - (STALL_ALPHA_NEG - a) * 3) ≤ 1 :=
      max_le (by norm_num) (by linarith)
    have hm2 : (0.5 : ℝ) ≤ max 0.5 (1 - (STALL_ALPHA_NEG - a) * 3) :=
      le_max_left _ _
    constructor <;> nlinarith
  · constructor
    · exact le_max_left _ _
    · exact max_le (by norm_num) (min_le_left _ _)

/-- C1 (counterexample): `calculateCL` jumps by more than `0.1` across the
negative stall boundary — the clamped linear branch gives `−44π/180 ≈ −0.768`
at `−10°`, while the taper branch gives `≈ −0.897` a thousandth of a radian
below it, so the two branches do not agree at that boundary within any
reasonable numerical tolerance. -/
theorem calculateCL_boundary_jump :
    calculateCL STALL_ALPHA_NEG - calculateCL (STALL_ALPHA_NEG - 0.001) > 0.1 := by
  rw [calculateCL_at_stall_neg,
    calculateCL_taper_neg 0.001 (by norm_num) (by norm_num)]
  unfold STALL_ALPHA_NEG ALPHA_0
  nlinarith [Real.pi_lt_d2, Real.pi_gt_d6]

/-- C1 (amended): `calculateCL` is continuous at the positive stall boundary
`+12°` — the clamped linear branch equals `CL_MAX` at and just below the
boundary and the taper branch deviates from `CL_MAX` by at most `3.6·ε` just
above it — but at the negative boundary `−10°` it is discontinuous: the value
at the boundary exceeds the taper value just below it by at least `0.1`. -/
theorem calculateCL_boundary_behaviour (e : ℝ) (h1 : 0 < e) (h2 : e ≤ 0.01) :
    calculateCL STALL_ALPHA_POS = CL_MAX ∧
    calculateCL (STALL_ALPHA_POS - e) = CL_MAX ∧
    |calculateCL (STALL_ALPHA_POS + e) - CL_MAX| ≤ 3.6 * e ∧
    0.1 ≤ calculateCL STALL_ALPHA_NEG - calculateCL (STALL_ALPHA_NEG - e) := by
  refine ⟨?_, ?_, ?_, ?_⟩
  · have h := calculateCL_at_stall_pos_region 0 (by norm_num) (by norm_num)
    rw [sub_zero] at h
    rw [h]
    unfold CL_MAX
    norm_num
  · rw [calculateCL_at_stall_pos_region e h1.le h2]
    unfold CL_MAX
    norm_num
  · rw [calculateCL_taper_pos e h1 h2]
    unfold CL_MAX
    rw [show (1.2 : ℝ) * (1 - e * 3) - 1.2 = -(3.6 * e) by ring, abs_neg,
      abs_of_nonneg (by linarith)]
  · rw [calculateCL_at_stall_neg, calculateCL_taper_neg e h1 h2]
    unfold STALL_ALPHA_NEG ALPHA_0
    nlinarith [Real.pi_lt_d2]

/-- C1 (witness): the amended boundary description instantiated at
`ε = 0.005`. -/
theorem calculateCL_boundary_behaviour_witness :
    (0 : ℝ) < 0.005 ∧ (0.005 : ℝ) ≤ 0.01 ∧
    (calculateCL STALL_ALPHA_POS = CL_MAX ∧
     calculateCL (STALL_ALPHA_POS - 0.005) = CL_MAX ∧
     |calculateCL (STALL_ALPHA_POS + 0.005) - CL_MAX| ≤ 3.6 * 0.005 ∧
     0.1 ≤ calculateCL STALL_ALPHA_NEG - calculateCL (STALL_ALPHA_NEG - 0.005)) :=
  ⟨by norm_num, by norm_num,
    calculateCL_boundary_behaviour 0.005 (by norm_num) (by norm_num)⟩

/-! Telemetry helpers for the stall-flag boundary. -/

theorem airVel_alphaTest (a : ℝ) :
    (alphaTestState a).velocity.sub (windVec zeroWind) = ⟨0, -Real.tan a, 1⟩ := by
  unfold alphaTestState zeroWind windVec Vec3.sub
  norm_num

/-- At the angle-realizing fixture, `getTelemetry`'s stall flag is the
boundary test applied to the realized angle itself. -/
theorem getTelemetry_isStalling_alphaTest (a : ℝ) (h1 : -(π / 2) < a)
    (h2 : a < π / 2) :
    (getTelemetry (alphaTestState a) zeroWind).isStalling =
      (if a > STALL_ALPHA_POS ∨ a < STALL_ALPHA_NEG then true else false) := by
  simp only [getTelemetry, airVel_alphaTest,
    show (alphaTestState a).quaternion = idQuat from rfl,
    calculateAngleOfAttack_tan h1 h2]

/-- C8: `getTelemetry` reports `isStalling = true` exactly when the angle of
attack computed from the air-relative velocity exceeds `+12°` or lies below
`−10°` (strict comparisons); at the boundaries, `α = 12.0001°` stalls while
`α = 11.99°` does not, and symmetrically `α = −10.0001°` stalls while
`α = −9.99°` does not. -/
theorem isStalling_iff :
    (∀ (s : GliderState) (w : WindField),
      ((getTelemetry s w).isStalling = true ↔
        (calculateAngleOfAttack (s.velocity.sub (windVec w)) s.quaternion >
            STALL_ALPHA_POS ∨
         calculateAngleOfAttack (s.velocity.sub (windVec w)) s.quaternion <
            STALL_ALPHA_NEG))) ∧
    (getTelemetry (alphaTestState (12.0001 * (π / 180))) zeroWind).isStalling
        = true ∧
    (getTelemetry (alphaTestState (11.99 * (π / 180))) zeroWind).isStalling
        = false ∧
    (getTelemetry (alphaTestState (-10.0001 * (π / 180))) zeroWind).isStalling
        = true ∧
    (getTelemetry (alphaTestState (-9.99 * (π / 180))) zeroWind).isStalling
        = false := by
  refine ⟨?_, ?_, ?_, ?_, ?_⟩
  · intro s w
    simp only [getTelemetry]
    by_cases hP : calculateAngleOfAttack (s.velocity.sub (windVec w))
        s.quaternion > STALL_ALPHA_POS ∨
        calculateAngleOfAttack (s.velocity.sub (windVec w)) s.quaternion <
        STALL_ALPHA_NEG
    · simp [hP]
    · simp [hP]
  · rw [getTelemetry_isStalling_alphaTest _ (by nlinarith [Real.pi_pos])
      (by nlinarith [Real.pi_pos])]
    rw [if_pos (Or.inl (by unfold STALL_ALPHA_POS; nlinarith [Real.pi_pos]))]
  · rw [getTelemetry_isStalling_alphaTest _ (by nlinarith [Real.pi_pos])
      (by nlinarith [Real.pi_pos])]
    rw [if_neg ?hc]
    case hc =>
      push_neg
      constructor
      · unfold STALL_ALPHA_POS
        nlinarith [Real.pi_pos]
      · unfold STALL_ALPHA_NEG
        nlinarith [Real.pi_pos]
  · rw [getTelemetry_isStalling_alphaTest _ (by nlinarith [Real.pi_pos])
      (by nlinarith [Real.pi_pos])]
    rw [if_pos (Or.inr (by unfold STALL_ALPHA_NEG; nlinarith [Real.pi_pos]))]
  · rw [getTelemetry_isStalling_alphaTest _ (by nlinarith [Real.pi_pos])
      (by nlinarith [Real.pi_pos])]
    rw [if_neg ?hc2]
    case hc2 =>
      push_neg
      constructor
      · unfold STALL_ALPHA_POS
        nlinarith [Real.pi_pos]
      · unfold STALL_ALPHA_NEG
        nlinarith [Real.pi_pos]

/-- C10: `calculateAngleOfAttack` short-circuits to `0` below `0.1` m/s of
air-relative speed (so the normalization of a near-zero vector is never
reached), and consequently `getTelemetry` then reports an angle of attack of
`0` degrees and no stall. -/
theorem angleOfAttack_zero_at_low_airspeed :
    (∀ (v : Vec3) (q : Quat), v.length < 0.1 →
      calculateAngleOfAttack v q = 0) ∧
    (∀ (s : GliderState) (w : WindField),
      (s.velocity.sub (windVec w)).length < 0.1 →
      (getTelemetry s w).angleOfAttack = 0 ∧
      (getTelemetry s w).isStalling = false) := by
  have hzero : ∀ (v : Vec3) (q : Quat), v.length < 0.1 →
      calculateAngleOfAttack v q = 0 := by
    intro v q h
    unfold calculateAngleOfAttack
    rw [if_pos h]
  refine ⟨hzero, ?_⟩
  intro s w h
  have hnot : ¬ ((0 : ℝ) > STALL_ALPHA_POS ∨ (0 : ℝ) < STALL_ALPHA_NEG) := by
    rintro (hc | hc)
    · exact not_stall_pos_zero hc
    · exact not_stall_neg_zero hc
  constructor
  · simp only [getTelemetry, hzero _ _ h]
    norm_num
  · simp only [getTelemetry, hzero _ _ h, if_neg hnot]

/-- C10 (witness): at zero velocity (and at the C5 fixture, whose air-relative
velocity vanishes), the angle of attack is `0` and no stall is reported. -/
theorem angleOfAttack_zero_at_low_airspeed_witness :
    Vec3.length ⟨0, 0, 0⟩ < 0.1 ∧
    calculateAngleOfAttack ⟨0, 0, 0⟩ idQuat = 0 ∧
    (stateC5.velocity.sub (windVec windC5)).length < 0.1 ∧
    (getTelemetry stateC5 windC5).angleOfAttack = 0 ∧
    (getTelemetry stateC5 windC5).isStalling = false := by
  have hv : Vec3.length (⟨0, 0, 0⟩ : Vec3) < 0.1 := by
    unfold Vec3.length
    rw [show (0 : ℝ) ^ 2 + 0 ^ 2 + 0 ^ 2 = 0 by norm_num, Real.sqrt_zero]
    norm_num
  have hs : (stateC5.velocity.sub (windVec windC5)).length < 0.1 := by
    rw [show stateC5.velocity.sub (windVec windC5) = ⟨0, 0, 0⟩ by
      unfold stateC5 windC5 windVec Vec3.sub; norm_num]
    exact hv
  exact ⟨hv, angleOfAttack_zero_at_low_airspeed.1 _ _ hv, hs,
    (angleOfAttack_zero_at_low_airspeed.2 _ _ hs).1,
    (angleOfAttack_zero_at_low_airspeed.2 _ _ hs).2⟩

/-- C6: `applyWeathervane` leaves the angular velocity unchanged when the
speed `|velocity|` is below 5 m/s, or when the sideslip
`normalize(velocity)·right` is below `0.01` in magnitude; otherwise it blends
only the yaw rate toward
`−sideslip · WEATHERVANE_STRENGTH · min 1 (speed/30)` with blend factor
`dt · 3`. -/
theorem applyWeathervane_characterization :
    ∀ (ω v : Vec3) (q : Quat) (dt : ℝ),
      (v.length < 5 → applyWeathervane ω v q dt = ω) ∧
      (5 ≤ v.length → |Vec3.dot v.normalize (getRightVector q)| < 0.01 →
        applyWeathervane ω v q dt = ω) ∧
      (5 ≤ v.length → 0.01 ≤ |Vec3.dot v.normalize (getRightVector q)| →
        applyWeathervane ω v q dt =
          ⟨ω.x,
           ω.y + (-(Vec3.dot v.normalize (getRightVector q)) *
              WEATHERVANE_STRENGTH * min 1 (v.length / 30) - ω.y) * dt * 3,
           ω.z⟩) := by
  intro ω v q dt
  refine ⟨?_, ?_, ?_⟩
  · intro h
    simp only [applyWeathervane, if_pos h]
  · intro h hs
    simp only [applyWeathervane, if_neg (not_lt.mpr h), if_pos hs]
  · intro h hs
    simp only [applyWeathervane, if_neg (not_lt.mpr h),
      if_neg (not_lt.mpr hs)]

/-- C6 (witness): at 1 m/s the weathervane stage is inert. -/
theorem applyWeathervane_characterization_witness :
    Vec3.length ⟨1, 0, 0⟩ < 5 ∧
    applyWeathervane ⟨0.1, 0.2, 0.3⟩ ⟨1, 0, 0⟩ idQuat 1 = ⟨0.1, 0.2, 0.3⟩ := by
  have h : Vec3.length (⟨1, 0, 0⟩ : Vec3) < 5 := by
    unfold Vec3.length
    rw [show (1 : ℝ) ^ 2 + 0 ^ 2 + 0 ^ 2 = 1 ^ 2 by norm_num,
      Real.sqrt_sq (by norm_num)]
    norm_num
  exact ⟨h, (applyWeathervane_characterization _ _ _ _).1 h⟩

/-- One physics step either renormalizes the orientation (length exactly 1 in
real arithmetic) or leaves it untouched. -/
theorem updatePhysics_quaternion_cases (s : GliderState) (c : ControlInput)
    (w : WindField) (dt : ℝ) :
    (updatePhysics s c w dt).quaternion.length = 1 ∨
    (updatePhysics s c w dt).quaternion = s.quaternion := by
  rw [updatePhysics_quaternion]
  simp only [quaternionAfter]
  split_ifs with hc
  · left
    exact Quat.length_normalize _
  · right
    rfl

/-- C3: for every sequence of steps (controls, wind sample, `dt ≤ 0.05`
each), starting from a state whose orientation length lies in
`[1 − 1e-6, 1 + 1e-6]`, the orientation length stays in that interval after
the whole sequence — hence, applied to every prefix, after every step. -/
theorem quaternion_norm_preserved :
    ∀ (steps : List (ControlInput × WindField × ℝ)) (s : GliderState),
      (∀ p ∈ steps, p.2.2 ≤ 0.05) →
      1 - 1e-6 ≤ s.quaternion.length → s.quaternion.length ≤ 1 + 1e-6 →
      (1 - 1e-6 ≤ (steps.foldl
          (fun st p => updatePhysics st p.1 p.2.1 p.2.2) s).quaternion.length ∧
       (steps.foldl
          (fun st p => updatePhysics st p.1 p.2.1 p.2.2) s).quaternion.length
         ≤ 1 + 1e-6) := by
  intro steps
  induction steps with
  | nil =>
    intro s _ h1 h2
    exact ⟨h1, h2⟩
  | cons p rest ih =>
    intro s hdt h1 h2
    rw [List.foldl_cons]
    have hstep := updatePhysics_quaternion_cases s p.1 p.2.1 p.2.2
    have hnext1 : 1 - 1e-6 ≤ (updatePhysics s p.1 p.2.1 p.2.2).quaternion.length := by
      rcases hstep with hone | heq
      · rw [hone]; norm_num
      · rw [heq]; exact h1
    have hnext2 : (updatePhysics s p.1 p.2.1 p.2.2).quaternion.length ≤ 1 + 1e-6 := by
      rcases hstep with hone | heq
      · rw [hone]; norm_num
      · rw [heq]; exact h2
    exact ih _ (fun x hx => hdt x (List.mem_cons_of_mem _ hx)) hnext1 hnext2

/-- C3 (witness): one step of length `0.05` from a unit-orientation state. -/
theorem quaternion_norm_preserved_witness :
    (∀ p ∈ [((zeroControls, zeroWind, (0.05 : ℝ)))], p.2.2 ≤ 0.05) ∧
    1 - 1e-6 ≤ stateC4.quaternion.length ∧
    stateC4.quaternion.length ≤ 1 + 1e-6 ∧
    (1 - 1e-6 ≤ ([((zeroControls, zeroWind, (0.05 : ℝ)))].foldl
        (fun st p => updatePhysics st p.1 p.2.1 p.2.2) stateC4).quaternion.length ∧
     ([((zeroControls, zeroWind, (0.05 : ℝ)))].foldl
        (fun st p => updatePhysics st p.1 p.2.1 p.2.2) stateC4).quaternion.length
       ≤ 1 + 1e-6) := by
  have hlen : stateC4.quaternion.length = 1 := by
    show Quat.length idQuat = 1
    unfold idQuat Quat.length Quat.normSq
    rw [show (0 : ℝ) ^ 2 + 0 ^ 2 + 0 ^ 2 + 1 ^ 2 = 1 by norm_num, Real.sqrt_one]
  have hdt : ∀ p ∈ [((zeroControls, zeroWind, (0.05 : ℝ)))], p.2.2 ≤ 0.05 := by
    intro p hp
    rw [List.mem_singleton] at hp
    rw [hp]
  exact ⟨hdt, by rw [hlen]; norm_num, by rw [hlen]; norm_num,
    quaternion_norm_preserved _ _ hdt (by rw [hlen]; norm_num)
      (by rw [hlen]; norm_num)⟩

/-- C4 (amended): outside the stall region, the pitch-stability correction of
`updatePhysics` uses the angle of attack recomputed from the
**pre-integration** velocity `state.velocity` (with the current orientation):
when `|α − 4°| > 2°` and `|pitch input| < 0.3` it adds `(α − 4°)·0.5·dt·3`
to the pitch rate on top of the control/damping/weathervane pipeline, and
otherwise it leaves that pipeline's output unchanged. -/
theorem pitch_stability_uses_preintegration_alpha
    (s : GliderState) (c : ControlInput) (w : WindField) (dt : ℝ) (a : ℝ)
    (ha : a = calculateAngleOfAttack (s.velocity.sub (windVec w)) s.quaternion)
    (hns1 : ¬ a > STALL_ALPHA_POS) (hns2 : ¬ a < STALL_ALPHA_NEG) :
    (|a - 4 * (π / 180)| > 2 * (π / 180) ∧ |c.pitch| < 0.3 →
      (updatePhysics s c w dt).angularVelocity =
        ⟨(angularAfterWeathervane s c w (min dt 0.05)).x +
            (a - 4 * (π / 180)) * 0.5 * (min dt 0.05) * 3,
          (angularAfterWeathervane s c w (min dt 0.05)).y,
          (angularAfterWeathervane s c w (min dt 0.05)).z⟩) ∧
    (¬ (|a - 4 * (π / 180)| > 2 * (π / 180) ∧ |c.pitch| < 0.3) →
      (updatePhysics s c w dt).angularVelocity =
        angularAfterWeathervane s c w (min dt 0.05)) := by
  have hα : updateAlpha s w = a := by
    rw [ha]
    rfl
  constructor
  · intro hcond
    rw [updatePhysics_angularVelocity]
    simp only [angularAfterStall, hα, if_neg hns1, if_neg hns2,
      angularAfterStability, if_pos hcond]
  · intro hcond
    rw [updatePhysics_angularVelocity]
    simp only [angularAfterStall, hα, if_neg hns1, if_neg hns2,
      angularAfterStability, if_neg hcond]

/-- C4 (witness): the amended description instantiated at the C4 fixture,
where the pre-integration angle of attack is exactly `0`. -/
theorem pitch_stability_uses_preintegration_alpha_witness :
    (0 : ℝ) = calculateAngleOfAttack
        (stateC4.velocity.sub (windVec zeroWind)) stateC4.quaternion ∧
    ¬ ((0 : ℝ) > STALL_ALPHA_POS) ∧ ¬ ((0 : ℝ) < STALL_ALPHA_NEG) ∧
    (|(0 : ℝ) - 4 * (π / 180)| > 2 * (π / 180) ∧ |zeroControls.pitch| < 0.3) ∧
    (updatePhysics stateC4 zeroControls zeroWind 0.05).angularVelocity =
      ⟨(angularAfterWeathervane stateC4 zeroControls zeroWind (min 0.05 0.05)).x +
          ((0 : ℝ) - 4 * (π / 180)) * 0.5 * (min 0.05 0.05) * 3,
        (angularAfterWeathervane stateC4 zeroControls zeroWind (min 0.05 0.05)).y,
        (angularAfterWeathervane stateC4 zeroControls zeroWind (min 0.05 0.05)).z⟩ := by
  have ha : (0 : ℝ) = calculateAngleOfAttack
      (stateC4.velocity.sub (windVec zeroWind)) stateC4.quaternion := by
    have h := updateAlpha_C4
    unfold updateAlpha at h
    exact h.symm
  have hcond : |(0 : ℝ) - 4 * (π / 180)| > 2 * (π / 180) ∧
      |zeroControls.pitch| < 0.3 := by
    constructor
    · rw [show (0 : ℝ) - 4 * (π / 180) = -(4 * (π / 180)) by ring, abs_neg,
        abs_of_nonneg (by positivity : (0 : ℝ) ≤ 4 * (π / 180))]
      nlinarith [Real.pi_pos]
    · unfold zeroControls
      norm_num
  exact ⟨ha, not_stall_pos_zero, not_stall_neg_zero, hcond,
    (pitch_stability_uses_preintegration_alpha stateC4 zeroControls zeroWind
      0.05 0 ha not_stall_pos_zero not_stall_neg_zero).1 hcond⟩

/-- C4 (counterexample): at the C4 fixture the pitch rate produced by
`updatePhysics` (which recomputes the angle of attack from the
pre-integration velocity, yielding `α = 0`) differs from the value demanded
by the claim's post-integration reading (for which
`α = arctan 1.635 ≈ 58.5°`). -/
theorem pitch_stability_postintegration_counterexample :
    (updatePhysics stateC4 zeroControls zeroWind 0.05).angularVelocity.x ≠
      (angularAfterStabilityPostIntegration stateC4 zeroControls zeroWind
        0.05).x := by
  rw [updatePhysics_angularVelocity, min_self, angularAfterStall_C4,
    angularAfterStabilityPostIntegration_C4]
  show (0 - 4 * (π / 180)) * 0.5 * 0.05 * 3 ≠
    (Real.arctan 1.635 - 4 * (π / 180)) * 0.5 * 0.05 * 3
  have hgt := arctan_1635_gt
  have hpi := Real.pi_pos
  intro heq
  nlinarith

/-- C5: whenever the post-integration altitude is below 5 m, the returned
position has altitude exactly 5, and if additionally the post-integration
vertical velocity is negative, the returned velocity has vertical component 0
and both horizontal components scaled by 0.98. -/
theorem ground_contact_clamp :
    ∀ (s : GliderState) (c : ControlInput) (w : WindField) (dt : ℝ),
      s.position.y +
          (integratedVelocity s c w (min dt 0.05)).y * min dt 0.05 < 5 →
      ((updatePhysics s c w dt).position.y = 5 ∧
       ((integratedVelocity s c w (min dt 0.05)).y < 0 →
         (updatePhysics s c w dt).velocity =
           ⟨(integratedVelocity s c w (min dt 0.05)).x * 0.98, 0,
            (integratedVelocity s c w (min dt 0.05)).z * 0.98⟩)) := by
  intro s c w dt h
  have hcond : (s.position.add
      ((integratedVelocity s c w (min dt 0.05)).scale (min dt 0.05))).y < 5 := by
    show s.position.y +
      (integratedVelocity s c w (min dt 0.05)).y * min dt 0.05 < 5
    exact h
  constructor
  · simp only [updatePhysics, if_pos hcond]
  · intro hv
    simp only [updatePhysics, if_pos hcond, if_pos hv]

theorem integratedVelocity_C5 :
    integratedVelocity stateC5 zeroControls windC5 0.05 = ⟨10, -5.4905, 0⟩ := by
  rw [integratedVelocity_of_zero_aero _ _ _ _ ?hzero]
  · unfold stateC5 GRAVITY
    norm_num
  case hzero =>
    rw [show stateC5.velocity.sub (windVec windC5) = ⟨0, 0, 0⟩ by
      unfold stateC5 windC5 windVec Vec3.sub; norm_num]
    unfold Vec3.length
    rw [show (0 : ℝ) ^ 2 + 0 ^ 2 + 0 ^ 2 = 0 by norm_num, Real.sqrt_zero]
    norm_num

/-- C5 (witness): the spec's concrete scenario — altitude 3 m, vertical
velocity −5 m/s, horizontal speed 10 m/s (air-relative velocity zero, so the
only force is gravity) — lands on altitude 5, vertical velocity 0 and
horizontal velocity scaled by 0.98 to `9.8`. -/
theorem ground_contact_clamp_witness :
    stateC5.position.y +
        (integratedVelocity stateC5 zeroControls windC5 (min 0.05 0.05)).y *
          min 0.05 0.05 < 5 ∧
    (integratedVelocity stateC5 zeroControls windC5 (min 0.05 0.05)).y < 0 ∧
    (updatePhysics stateC5 zeroControls windC5 0.05).position.y = 5 ∧
    (updatePhysics stateC5 zeroControls windC5 0.05).velocity = ⟨9.8, 0, 0⟩ := by
  have hiv : integratedVelocity stateC5 zeroControls windC5 (min 0.05 0.05) =
      ⟨10, -5.4905, 0⟩ := by
    rw [min_self]
    exact integratedVelocity_C5
  have h1 : stateC5.position.y +
      (integratedVelocity stateC5 zeroControls windC5 (min 0.05 0.05)).y *
        min 0.05 0.05 < 5 := by
    rw [hiv]
    show (3 : ℝ) + (-5.4905) * min 0.05 0.05 < 5
    rw [min_self]
    norm_num
  have h2 : (integratedVelocity stateC5 zeroControls windC5 (min 0.05 0.05)).y
      < 0 := by
    rw [hiv]
    norm_num
  have main := ground_contact_clamp stateC5 zeroControls windC5 0.05 h1
  refine ⟨h1, h2, main.1, ?_⟩
  rw [main.2 h2, hiv]
  norm_num

/-- C2 (counterexample): from a starting population of 21 long-lived thermals
(one above the target), a single update with the positive timestep `dt = 1`
returns 21 active thermals, not `THERMAL_COUNT = 20` — the update replenishes
an under-full population but never trims an over-full one. -/
theorem thermal_count_not_always_target :
    (0 : ℝ) < 1 ∧
    (updateThermalSystem constRand 0 overfullThermalState 1).thermals.length ≠
      THERMAL_COUNT := by
  refine ⟨by norm_num, ?_⟩
  show (replenish constRand 0 ((List.replicate 21 longLivedThermal).filterMap
      (agedDriftedThermal (⟨0, 0, 0⟩ : Vec3) 1))).length ≠ THERMAL_COUNT
  rw [filterMap_replicate_some _ _ _ aged_longLived 21]
  rw [replenish]
  rw [dif_neg (by simp [THERMAL_COUNT])]
  simp [THERMAL_COUNT]

/-- C2 (amended): from any starting population of **at most** the target size
(the only sizes the system itself ever produces — initialization creates
exactly 20), every update in any nonempty sequence of updates with positive
timesteps returns exactly `THERMAL_COUNT = 20` active thermals; the theorem
gives the count after the last update of an arbitrary such sequence, hence,
applied to every prefix, after every update. -/
theorem thermal_count_target_of_le :
    ∀ (upds : List (ℝ × (ℕ → ℝ))) (d : ℝ × (ℕ → ℝ)) (s : ThermalSystemState),
      s.thermals.length ≤ THERMAL_COUNT → 0 < d.1 →
      (∀ p ∈ upds, 0 < p.1) →
      ((d :: upds).foldl
          (fun st p => updateThermalSystem p.2 0 st p.1) s).thermals.length =
        THERMAL_COUNT := by
  have hpres : ∀ (upds : List (ℝ × (ℕ → ℝ))) (s : ThermalSystemState),
      s.thermals.length = THERMAL_COUNT →
      (upds.foldl
          (fun st p => updateThermalSystem p.2 0 st p.1) s).thermals.length =
        THERMAL_COUNT := by
    intro upds
    induction upds with
    | nil =>
      intro s h
      exact h
    | cons p rest ih =>
      intro s h
      rw [List.foldl_cons]
      exact ih _ (updateThermalSystem_count _ _ _ _ (le_of_eq h))
  intro upds d s hle _ _
  rw [List.foldl_cons]
  exact hpres upds _ (updateThermalSystem_count _ _ _ _ hle)

/-- C2 (witness): one update with `dt = 1` from the empty population fills it
to exactly 20 thermals. -/
theorem thermal_count_target_of_le_witness :
    (⟨[], ⟨0, 0, 0⟩, 0⟩ : ThermalSystemState).thermals.length ≤ THERMAL_COUNT ∧
    (0 : ℝ) < 1 ∧
    (([((1 : ℝ), constRand)]).foldl
        (fun st p => updateThermalSystem p.2 0 st p.1)
        (⟨[], ⟨0, 0, 0⟩, 0⟩ : ThermalSystemState)).thermals.length =
      THERMAL_COUNT := by
  have h1 : (⟨[], ⟨0, 0, 0⟩, 0⟩ : ThermalSystemState).thermals.length ≤
      THERMAL_COUNT := by
    simp [THERMAL_COUNT]
  exact ⟨h1, by norm_num,
    thermal_count_target_of_le [] (1, constRand) _ h1 (by norm_num)
      (by intro p hp; exact absurd hp (List.not_mem_nil p))⟩

/-- C7: every surviving thermal of an update is aged by `dt`, drifted by
`wind · THERMAL_DRIFT_FACTOR · dt` and wrapped toroidally on both horizontal
axes (the survivors form a prefix of the new population, in order); and the
wrap sends a post-drift center at `x = 5001` (with half-extent 5000) to
`x = −4999`. -/
theorem thermal_drift_wrap :
    ∀ (rand : ℕ → ℝ) (k : ℕ) (s : ThermalSystemState) (dt : ℝ),
      (∃ rest, (updateThermalSystem rand k s dt).thermals =
        s.thermals.filterMap (agedDriftedThermal s.wind dt) ++ rest) ∧
      agedDriftedThermal ⟨10 / 7, 0, 0⟩ 1 ⟨⟨5000, 0⟩, 350, 10, 0, 300⟩ =
        some ⟨⟨-4999, 0⟩, 350, 10, 1, 300⟩ := by
  intro rand k s dt
  constructor
  · obtain ⟨rest, hrest⟩ := replenish_appends rand _ k
      (s.thermals.filterMap (agedDriftedThermal s.wind dt)) rfl
    refine ⟨rest, ?_⟩
    show replenish rand k
      (s.thermals.filterMap (agedDriftedThermal s.wind dt)) = _
    exact hrest
  · unfold agedDriftedThermal WORLD_SIZE THERMAL_DRIFT_FACTOR
    norm_num
